import Mathlib

/-!
Verification of the request-construction and response-interpretation core of
the Avo schema receiver (`src/App.tsx`).  JavaScript strings are embedded as
`List Char`; the stateful React component is embedded as explicit state
passing on an `AppState` record.  Fallible JS operations (`btoa` on
non-Latin-1 input) return `Except`.
-/

/-- The set of code points removed by JavaScript `String.prototype.trim`:
WhiteSpace (TAB, VT, FF, SP, NBSP, ZWNBSP, and Unicode Space_Separator)
together with LineTerminator (LF, CR, LS, PS). -/
def isJsWhitespace (c : Char) : Bool :=
  ([0x9, 0xA, 0xB, 0xC, 0xD, 0x20, 0xA0, 0x1680,
    0x2000, 0x2001, 0x2002, 0x2003, 0x2004, 0x2005, 0x2006, 0x2007,
    0x2008, 0x2009, 0x200A, 0x2028, 0x2029, 0x202F, 0x205F, 0x3000,
    0xFEFF] : List Nat).contains c.toNat

/-- JavaScript `String.prototype.trim`: drop leading and trailing
whitespace. -/
def jsTrim (s : List Char) : List Char :=
  ((s.dropWhile isJsWhitespace).reverse.dropWhile isJsWhitespace).reverse

/-- JavaScript `String.prototype.startsWith`: `jsStartsWith s pat` is true
when `pat` is an initial segment of `s`. -/
def jsStartsWith : List Char → List Char → Bool
  | _, [] => true
  | [], _ :: _ => false
  | c :: cs, p :: ps => if c = p then jsStartsWith cs ps else false

/-- JavaScript `String.prototype.replace` with a string pattern: replace the
first occurrence of `pat` in `s` by `rep` (the empty pattern matches at the
start, as in JS). -/
def replaceFirst : List Char → List Char → List Char → List Char
  | [], pat, rep => if jsStartsWith [] pat then rep else []
  | c :: rest, pat, rep =>
    if jsStartsWith (c :: rest) pat then rep ++ (c :: rest).drop pat.length
    else c :: replaceFirst rest pat rep

/-- `getProxiedUrl` from `App.tsx` (lines 27-32): rewrite a URL that starts
with the external API origin to go through the local dev proxy. -/
def getProxiedUrl (url : List Char) : List Char :=
  if jsStartsWith url "https://api.avo.app".data then
    replaceFirst url "https://api.avo.app".data "/api".data
  else url

/-- The standard base64 alphabet used by `btoa`. -/
def base64Table : List Char :=
  "ABCDEFGHIJKLMNOPQRSTUVWXYZabcdefghijklmnopqrstuvwxyz0123456789+/".data

/-- The base64 digit for a 6-bit value. -/
def b64char (n : Nat) : Char := base64Table.getD n 'A'

/-- Standard base64 of a byte sequence, with `=` padding, as produced by
`btoa` on Latin-1 input. -/
def base64encode : List Nat → List Char
  | [] => []
  | [a] => [b64char (a / 4), b64char (a % 4 * 16), '=', '=']
  | [a, b] => [b64char (a / 4), b64char (a % 4 * 16 + b / 16), b64char (b % 16 * 4), '=']
  | a :: b :: c :: rest =>
    [b64char (a / 4), b64char (a % 4 * 16 + b / 16),
     b64char (b % 16 * 4 + c / 64), b64char (c % 64)] ++ base64encode rest

/-- The exceptions the embedded code can raise. -/
inductive JsError where
  | invalidCharacter

/-- The user-visible message of an exception (`err.message`). -/
def JsError.message : JsError → List Char
  | .invalidCharacter =>
    "The string to be encoded contains characters outside of the Latin1 range.".data

/-- The platform `btoa`: defined only on strings of code points up to
U+00FF, where it returns the standard padded base64 of those bytes; on any
other input it raises `InvalidCharacterError`. -/
def btoa (s : List Char) : Except JsError (List Char) :=
  if s.all (fun c => c.toNat ≤ 255) then .ok (base64encode (s.map Char.toNat))
  else .error .invalidCharacter

/-- `encodeBasicAuth` from `App.tsx` (lines 22-24):
`btoa` of `username + ":" + password`. -/
def encodeBasicAuth (username password : List Char) : Except JsError (List Char) :=
  btoa (username ++ ":".data ++ password)

/-- Lookup of a key in the ordered header record. -/
def lookupHeader (k : List Char) : List (List Char × List Char) → Option (List Char)
  | [] => none
  | (k2, v) :: rest => if k2 = k then some v else lookupHeader k rest

/-- The header record built by `fetchSchema` (`App.tsx` lines 42-50):
always `Content-Type: application/json`; when both credentials are
non-blank after trimming, also the lowercase `authorization` header with
value `Basic` followed by the encoded trimmed credentials.  The `btoa`
exception propagates. -/
def buildHeaders (username password : List Char) :
    Except JsError (List (List Char × List Char)) :=
  if jsTrim username ≠ [] ∧ jsTrim password ≠ [] then
    match encodeBasicAuth (jsTrim username) (jsTrim password) with
    | .error e => .error e
    | .ok tok =>
      .ok ([("Content-Type".data, "application/json".data)] ++
           [("authorization".data, "Basic ".data ++ tok)])
  else .ok [("Content-Type".data, "application/json".data)]

/-- Generic JSON value, the payload shape of a parsed response. -/
inductive Json where
  | null
  | bool (b : Bool)
  | num (n : Int)
  | str (s : List Char)
  | arr (xs : List Json)
  | obj (fields : List (List Char × Json))

/-- The debug record captured by `fetchSchema` after a response arrives
(`App.tsx` lines 62-69). -/
structure DebugInfo where
  status : Nat
  statusText : List Char
  headers : List (List Char × List Char)
  url : List Char
  originalUrl : List Char
  proxiedUrl : List Char

/-- The environment's answer to the single `fetch` call: either a response
(status, status text, response headers, final URL, and the result of
parsing the body as JSON) or a network-level failure before any status. -/
inductive FetchResult where
  | success (status : Nat) (statusText : List Char)
      (respHeaders : List (List Char × List Char)) (respUrl : List Char)
      (body : Except (List Char) Json)
  | networkError (message : List Char)

/-- The React component state of `App` (`App.tsx` lines 12-20). -/
structure AppState where
  apiUrl : List Char
  username : List Char
  password : List Char
  schema : Option Json
  loading : Bool
  error : List Char
  copied : Bool
  curlCopied : Bool
  debugInfo : Option DebugInfo

/-- Guidance appended to the error message on a 404 (`App.tsx` line 79). -/
def remediation404 : List Char :=
  "\n\nPossible causes:\n• Incorrect Workspace ID or Branch ID\n• API endpoint structure has changed\n• Branch or workspace doesn\x27t exist".data

/-- Guidance appended to the error message on a 401 (`App.tsx` line 81). -/
def remediation401 : List Char :=
  "\n\nAuthentication failed:\n• Check your service account credentials\n• Verify the service account has access to this workspace".data

/-- Guidance appended to the error message on a 403 (`App.tsx` line 83). -/
def remediation403 : List Char :=
  "\n\nAccess forbidden:\n• Service account may not have permission to access this resource".data

/-- The error message thrown for a non-2xx response (`App.tsx` lines
75-86): always `HTTP <status>: <statusText>`, with status-specific
guidance appended for 404, 401 and 403. -/
def httpErrorMessage (status : Nat) (statusText : List Char) : List Char :=
  let base := "HTTP ".data ++ (Nat.repr status).data ++ ": ".data ++ statusText
  if status = 404 then base ++ remediation404
  else if status = 401 then base ++ remediation401
  else if status = 403 then base ++ remediation403
  else base

/-- The spec's error taxonomy for classified responses. -/
inductive ErrorCategory where
  | MalformedResponse
  | NotFound
  | Unauthorized
  | HttpError
  | NetworkError

/-- The spec's `ResponseOutcome`: a parsed payload or a categorized error. -/
inductive ResponseOutcome where
  | Success (v : Json)
  | Failure (category : ErrorCategory) (statusCode : Option Nat) (message : List Char)

/-- The response classification performed by `fetchSchema` (`App.tsx` lines
71-96): a 2xx response yields the parsed body, or a malformed-response
failure carrying the parse error; any other status yields the thrown
`httpErrorMessage`, tagged by which guidance branch the code takes
(404, 401/403, or the plain fall-through). -/
def classify (status : Nat) (statusText : List Char)
    (body : Except (List Char) Json) : ResponseOutcome :=
  if 200 ≤ status ∧ status ≤ 299 then
    match body with
    | .ok v => .Success v
    | .error e => .Failure .MalformedResponse none e
  else
    .Failure
      (if status = 404 then .NotFound
       else if status = 401 then .Unauthorized
       else if status = 403 then .Unauthorized
       else .HttpError)
      (some status)
      (httpErrorMessage status statusText)

/-- The synchronous prefix of `fetchSchema` after the blank-URL guard
(`App.tsx` lines 37-39): enter loading, clear the error text, clear the
debug record.  The previously fetched `schema` is not touched here. -/
def fetchStart (s : AppState) : AppState :=
  { s with loading := true, error := [], debugInfo := none }

/-- The remainder of `fetchSchema` (`App.tsx` lines 41-96): build the
headers (a `btoa` exception is caught and displayed), issue the request,
record the debug info, and either store the parsed schema or store the
thrown/caught error message; `loading` is reset in all cases.  The
returned flag says whether the HTTP request was issued. -/
def fetchResolve (s1 : AppState) (env : FetchResult) : AppState × Bool :=
  match buildHeaders s1.username s1.password with
  | .error e => ({ s1 with error := JsError.message e, loading := false }, false)
  | .ok _ =>
    match env with
    | .networkError m => ({ s1 with error := m, loading := false }, true)
    | .success status statusText respHeaders respUrl body =>
      let dbg : DebugInfo :=
        ⟨status, statusText, respHeaders, respUrl, s1.apiUrl,
         getProxiedUrl s1.apiUrl⟩
      let s2 := { s1 with debugInfo := some dbg }
      if 200 ≤ status ∧ status ≤ 299 then
        match body with
        | .ok v => ({ s2 with schema := some v, loading := false }, true)
        | .error e => ({ s2 with error := e, loading := false }, true)
      else
        ({ s2 with error := httpErrorMessage status statusText, loading := false }, true)

/-- `fetchSchema` (`App.tsx` lines 34-97) as a state transformer: a blank
URL is a no-op; otherwise the reset prefix runs and the fetch resolves
against the environment's `FetchResult`. -/
def fetchSchema (s : AppState) (env : FetchResult) : AppState × Bool :=
  if jsTrim s.apiUrl = [] then (s, false) else fetchResolve (fetchStart s) env

/-- `handleKeyPress` (`App.tsx` lines 139-143): Enter triggers
`fetchSchema`, any other key does nothing. -/
def handleKeyPress (key : List Char) (s : AppState) (env : FetchResult) :
    AppState × Bool :=
  if key = "Enter".data then fetchSchema s env else (s, false)

/-- A key event on any of the three inputs: each input sets
`disabled={loading}` (`App.tsx` lines 227, 267, 285), and a disabled HTML
input dispatches no keyboard events, so `handleKeyPress` only runs when
not loading. -/
def inputKeyEvent (key : List Char) (s : AppState) (env : FetchResult) :
    AppState × Bool :=
  if s.loading then (s, false) else handleKeyPress key s env

/-- A click on the fetch button (`App.tsx` lines 297-300): the button is
`disabled={loading || !apiUrl.trim()}`, and a disabled button fires no
click, so `fetchSchema` only runs when enabled. -/
def fetchButtonClick (s : AppState) (env : FetchResult) : AppState × Bool :=
  if s.loading = true ∨ jsTrim s.apiUrl = [] then (s, false)
  else fetchSchema s env

/-- `generateCurlCommand` (`App.tsx` lines 111-124): renders the same
headers as the request into a curl invocation; a blank URL yields the
empty string, and the `btoa` exception propagates. -/
def generateCurlCommand (apiUrl username password : List Char) :
    Except JsError (List Char) :=
  if jsTrim apiUrl = [] then .ok []
  else
    match (if jsTrim username ≠ [] ∧ jsTrim password ≠ [] then
            (encodeBasicAuth (jsTrim username) (jsTrim password)).map
              (fun tok => "curl -H \"Content-Type: application/json\"".data
                ++ " \\\n  -H \"authorization: Basic ".data ++ tok ++ "\"".data)
           else .ok "curl -H \"Content-Type: application/json\"".data) with
    | .error e => .error e
    | .ok cmd => .ok (cmd ++ " \\\n  -X GET \"".data ++ apiUrl ++ "\" \\\n  -v".data)

/-- Rendering of one header of a request descriptor in curl syntax,
written from the spec's words for comparison with `generateCurlCommand`. -/
def renderHeader (kv : List Char × List Char) : List Char :=
  "-H \"".data ++ kv.1 ++ ": ".data ++ kv.2 ++ "\"".data

/-- Rendering of a header record in curl syntax: the first header follows
`curl` on the same line, later ones on continuation lines. -/
def renderHeaders : List (List Char × List Char) → List Char
  | [] => []
  | kv :: rest =>
    (" ".data ++ renderHeader kv) ++
      (rest.map (fun kv2 => " \\\n  ".data ++ renderHeader kv2)).flatten

/-- The curl invocation a request descriptor denotes, written from the
spec's words: `curl`, every header with its exact name and value, then
`-X GET <url> -v`. -/
def curlOfDescriptor (url : List Char) (hdrs : List (List Char × List Char)) :
    List Char :=
  "curl".data ++ renderHeaders hdrs ++
    (" \\\n  -X GET \"".data ++ url ++ "\" \\\n  -v".data)

/-- Substring test: does `hay` contain `needle`? -/
def containsSub (needle : List Char) : List Char → Bool
  | [] => jsStartsWith [] needle
  | s@(_ :: rest) => jsStartsWith s needle || containsSub needle rest

lemma jsStartsWith_append (pat rest : List Char) :
    jsStartsWith (pat ++ rest) pat = true := by
  induction pat with
  | nil => cases rest <;> rfl
  | cons p ps ih => simp [jsStartsWith, ih]

lemma jsStartsWith_exists (pat : List Char) :
    ∀ s : List Char, jsStartsWith s pat = true → ∃ t, s = pat ++ t := by
  induction pat with
  | nil => intro s _; exact ⟨s, rfl⟩
  | cons p ps ih =>
    intro s h
    cases s with
    | nil => simp [jsStartsWith] at h
    | cons c cs =>
      unfold jsStartsWith at h
      by_cases hc : c = p
      · subst hc
        rw [if_pos rfl] at h
        obtain ⟨t, ht⟩ := ih cs h
        exact ⟨t, by rw [ht]; rfl⟩
      · rw [if_neg hc] at h
        exact absurd h (by simp)

lemma drop_length_append (l₁ l₂ : List Char) :
    (l₁ ++ l₂).drop l₁.length = l₂ := by
  induction l₁ with
  | nil => rfl
  | cons a l ih => simp [ih]

lemma replaceFirst_append (pat rest rep : List Char) :
    replaceFirst (pat ++ rest) pat rep = rep ++ rest := by
  cases pat with
  | nil =>
    cases rest with
    | nil => simp [replaceFirst, jsStartsWith]
    | cons c cs => simp [replaceFirst, jsStartsWith]
  | cons p ps =>
    show replaceFirst (p :: (ps ++ rest)) (p :: ps) rep = rep ++ rest
    unfold replaceFirst
    rw [if_pos (show jsStartsWith (p :: (ps ++ rest)) (p :: ps) = true from
      jsStartsWith_append (p :: ps) rest)]
    simp [drop_length_append]

/-- C2: a URL beginning with the external origin `https://api.avo.app` is
rewritten by `getProxiedUrl` to `/api` followed by the unchanged remainder
(path and query); any URL not beginning with that origin is returned
unchanged. -/
theorem claim_C2 :
    (∀ rest : List Char,
      getProxiedUrl ("https://api.avo.app".data ++ rest) = "/api".data ++ rest) ∧
    (∀ url : List Char,
      (∀ rest : List Char, url ≠ "https://api.avo.app".data ++ rest) →
      getProxiedUrl url = url) := by
  constructor
  · intro rest
    unfold getProxiedUrl
    rw [if_pos (jsStartsWith_append _ rest)]
    exact replaceFirst_append _ rest _
  · intro url h
    unfold getProxiedUrl
    rw [if_neg]
    intro hsw
    obtain ⟨t, ht⟩ := jsStartsWith_exists _ url hsw
    exact h t ht

/-- Witness for C2 at concrete URLs: an API-origin URL is proxied with its
path and query kept, and a foreign URL passes through unchanged. -/
theorem claim_C2_witness :
    getProxiedUrl "https://api.avo.app/workspaces/w1/branches/main/export/v1?x=1".data
      = "/api/workspaces/w1/branches/main/export/v1?x=1".data ∧
    getProxiedUrl "x".data = "x".data := by
  constructor
  · exact claim_C2.1 "/workspaces/w1/branches/main/export/v1?x=1".data
  · refine claim_C2.2 "x".data ?_
    intro rest h
    have h2 := congrArg List.length h
    rw [List.length_append,
      show ("x".data.length) = 1 from rfl,
      show (("https://api.avo.app".data).length) = 19 from rfl] at h2
    omega

/-- C1: whenever `fetchSchema`'s header construction completes, the header
record carries the lowercase `authorization` key exactly when both
credentials are non-blank after trimming, and its value is then
`Basic` followed by the standard padded base64 of
`trimmedUsername ++ ":" ++ trimmedPassword`. -/
theorem claim_C1 (u p : List Char) (hdrs : List (List Char × List Char))
    (h : buildHeaders u p = .ok hdrs) :
    ((lookupHeader "authorization".data hdrs).isSome = true ↔
      (jsTrim u ≠ [] ∧ jsTrim p ≠ [])) ∧
    (jsTrim u ≠ [] → jsTrim p ≠ [] →
      lookupHeader "authorization".data hdrs =
        some ("Basic ".data ++
          base64encode ((jsTrim u ++ ":".data ++ jsTrim p).map Char.toNat))) := by
  unfold buildHeaders at h
  by_cases hc : jsTrim u ≠ [] ∧ jsTrim p ≠ []
  · rw [if_pos hc] at h
    unfold encodeBasicAuth btoa at h
    by_cases hall :
        ((jsTrim u ++ ":".data ++ jsTrim p).all (fun c => c.toNat ≤ 255)) = true
    · rw [if_pos hall] at h
      simp only [] at h
      injection h with h2
      subst h2
      exact ⟨⟨fun _ => hc, fun _ => rfl⟩, fun _ _ => rfl⟩
    · rw [if_neg hall] at h
      simp at h
  · rw [if_neg hc] at h
    injection h with h2
    subst h2
    refine ⟨⟨fun habs => absurd habs (by decide), fun hand => absurd hand hc⟩, ?_⟩
    intro hu hp
    exact absurd ⟨hu, hp⟩ hc

/-- Witness for C1: with credentials `user` / `pass` the built request
carries `authorization: Basic dXNlcjpwYXNz`. -/
theorem claim_C1_witness :
    lookupHeader "authorization".data
        [("Content-Type".data, "application/json".data),
         ("authorization".data, "Basic dXNlcjpwYXNz".data)] =
      some ("Basic ".data ++
        base64encode ((jsTrim "user".data ++ ":".data ++ jsTrim "pass".data).map Char.toNat)) :=
  (claim_C1 "user".data "pass".data _ rfl).2 (by decide) (by decide)

/-- C3: for a 2xx status the classifier returns the parsed value on parse
success and a malformed-response failure carrying the parse error on parse
failure — no HTTP-error branch with remediation is taken — and
`fetchSchema` accordingly stores the parsed value as the schema, or the
parse error as the displayed error. -/
theorem claim_C3 (status : Nat) (statusText : List Char)
    (h1 : 200 ≤ status) (h2 : status ≤ 299) :
    (∀ v, classify status statusText (.ok v) = .Success v) ∧
    (∀ e, classify status statusText (.error e) =
      .Failure .MalformedResponse none e) ∧
    (∀ (s : AppState) rh ru v hdrs, buildHeaders s.username s.password = .ok hdrs →
      (fetchResolve s (.success status statusText rh ru (.ok v))).1.schema = some v) ∧
    (∀ (s : AppState) rh ru e hdrs, buildHeaders s.username s.password = .ok hdrs →
      (fetchResolve s (.success status statusText rh ru (.error e))).1.error = e) := by
  refine ⟨fun v => ?_, fun e => ?_, fun s rh ru v hdrs hb => ?_, fun s rh ru e hdrs hb => ?_⟩
  · simp [classify, h1, h2]
  · simp [classify, h1, h2]
  · simp [fetchResolve, hb, h1, h2]
  · simp [fetchResolve, hb, h1, h2]

/-- Witness for C3 at status 200: valid JSON is returned as `Success`, and
a non-JSON body becomes a malformed-response failure with the parse
error. -/
theorem claim_C3_witness :
    classify 200 "OK".data (.ok Json.null) = .Success Json.null ∧
    classify 200 "OK".data (.error "Unexpected token".data) =
      .Failure .MalformedResponse none "Unexpected token".data :=
  ⟨(claim_C3 200 "OK".data (by decide) (by decide)).1 Json.null,
   (claim_C3 200 "OK".data (by decide) (by decide)).2.1 "Unexpected token".data⟩

/-- C4: a 404 response is classified as a not-found failure whose message
is `HTTP 404: <statusText>` followed by remediation text that mentions the
workspace and branch identifiers and the endpoint. -/
theorem claim_C4 (statusText : List Char) (body : Except (List Char) Json) :
    classify 404 statusText body =
      .Failure .NotFound (some 404)
        ("HTTP 404: ".data ++ statusText ++ remediation404) ∧
    containsSub "Workspace ID".data remediation404 = true ∧
    containsSub "Branch ID".data remediation404 = true ∧
    containsSub "endpoint".data remediation404 = true :=
  ⟨rfl, by decide, by decide, by decide⟩

/-- C5: a 401 response and a 403 response are both classified as
unauthorized failures carrying their status code; the appended remediation
speaks of the service account, mentioning its credentials (401 branch) and
its permissions (403 branch). -/
theorem claim_C5 (statusText : List Char) (body : Except (List Char) Json) :
    classify 401 statusText body =
      .Failure .Unauthorized (some 401)
        ("HTTP 401: ".data ++ statusText ++ remediation401) ∧
    classify 403 statusText body =
      .Failure .Unauthorized (some 403)
        ("HTTP 403: ".data ++ statusText ++ remediation403) ∧
    containsSub "service account".data remediation401 = true ∧
    containsSub "credentials".data remediation401 = true ∧
    containsSub "Service account".data remediation403 = true ∧
    containsSub "permission".data remediation403 = true :=
  ⟨rfl, rfl, by decide, by decide, by decide, by decide⟩

/-- C6: every non-2xx response is classified as a failure carrying its
status code, and its message begins with `HTTP <status>: <statusText>`,
whatever the category. -/
theorem claim_C6 (status : Nat) (statusText : List Char)
    (body : Except (List Char) Json) (h : ¬ (200 ≤ status ∧ status ≤ 299)) :
    ∃ cat rest,
      classify status statusText body =
        .Failure cat (some status)
          (("HTTP ".data ++ (Nat.repr status).data ++ ": ".data ++ statusText)
            ++ rest) := by
  unfold classify httpErrorMessage
  rw [if_neg h]
  by_cases h4 : status = 404
  · exact ⟨ErrorCategory.NotFound, remediation404, by simp [h4]⟩
  · by_cases h1 : status = 401
    · exact ⟨ErrorCategory.Unauthorized, remediation401, by simp [h4, h1]⟩
    · by_cases h3 : status = 403
      · exact ⟨ErrorCategory.Unauthorized, remediation403, by simp [h4, h1, h3]⟩
      · exact ⟨ErrorCategory.HttpError, [], by simp [h4, h1, h3]⟩

/-- Witness for C6 at a 500 response. -/
theorem claim_C6_witness :
    ∃ cat rest,
      classify 500 "Internal Server Error".data (.ok Json.null) =
        .Failure cat (some 500)
          (("HTTP ".data ++ (Nat.repr 500).data ++ ": ".data
            ++ "Internal Server Error".data) ++ rest) :=
  claim_C6 500 "Internal Server Error".data (.ok Json.null) (by decide)

/-- Counterexample to C7 as stated: starting from a state that already
displays a payload, a new fetch that fails with a 404 leaves the old
payload in place — the schema is not cleared at the start of the
invocation, so the failed state still shows the stale payload next to the
new error. -/
theorem claim_C7_counterexample :
    ((fetchSchema
        { apiUrl := "https://x".data, username := [], password := [],
          schema := some Json.null, loading := false, error := [],
          copied := false, curlCopied := false, debugInfo := none }
        (.success 404 "Not Found".data [] "/x".data
          (.error "SyntaxError".data))).1.schema = some Json.null) ∧
    ((fetchSchema
        { apiUrl := "https://x".data, username := [], password := [],
          schema := some Json.null, loading := false, error := [],
          copied := false, curlCopied := false, debugInfo := none }
        (.success 404 "Not Found".data [] "/x".data
          (.error "SyntaxError".data))).1.error ≠ []) :=
  ⟨rfl, by decide⟩

/-- C7 as amended: a user-triggered fetch on a non-blank URL runs the
reset prefix and then resolves; that reset clears the previously displayed
error message and debug information — but not the previously displayed
payload, which `fetchStart` leaves untouched. -/
theorem claim_C7 (s : AppState) (env : FetchResult) (h : jsTrim s.apiUrl ≠ []) :
    fetchSchema s env = fetchResolve (fetchStart s) env ∧
    (fetchStart s).error = [] ∧
    (fetchStart s).debugInfo = none ∧
    (fetchStart s).loading = true ∧
    (fetchStart s).schema = s.schema := by
  refine ⟨?_, rfl, rfl, rfl, rfl⟩
  unfold fetchSchema
  rw [if_neg h]

/-- Witness for C7 (amended) at a concrete terminal state holding an old
payload, error and debug record. -/
theorem claim_C7_witness :
    fetchSchema
        { apiUrl := "u".data, username := [], password := [],
          schema := some Json.null, loading := false, error := "old".data,
          copied := false, curlCopied := false, debugInfo := none }
        (.networkError "x".data) =
      fetchResolve
        (fetchStart
          { apiUrl := "u".data, username := [], password := [],
            schema := some Json.null, loading := false, error := "old".data,
            copied := false, curlCopied := false, debugInfo := none })
        (.networkError "x".data) ∧
    (fetchStart
        { apiUrl := "u".data, username := [], password := [],
          schema := some Json.null, loading := false, error := "old".data,
          copied := false, curlCopied := false, debugInfo := none }).error = [] ∧
    (fetchStart
        { apiUrl := "u".data, username := [], password := [],
          schema := some Json.null, loading := false, error := "old".data,
          copied := false, curlCopied := false, debugInfo := none }).debugInfo = none ∧
    (fetchStart
        { apiUrl := "u".data, username := [], password := [],
          schema := some Json.null, loading := false, error := "old".data,
          copied := false, curlCopied := false, debugInfo := none }).loading = true ∧
    (fetchStart
        { apiUrl := "u".data, username := [], password := [],
          schema := some Json.null, loading := false, error := "old".data,
          copied := false, curlCopied := false, debugInfo := none }).schema
      = some Json.null :=
  claim_C7
    { apiUrl := "u".data, username := [], password := [],
      schema := some Json.null, loading := false, error := "old".data,
      copied := false, curlCopied := false, debugInfo := none }
    (.networkError "x".data) (by decide)

/-- C8: while a request is in flight (`loading` is true), neither the
fetch button (disabled then) nor the Enter key in any input (all inputs
disabled then) has any effect: the state is unchanged and no second
request is issued. -/
theorem claim_C8 (s : AppState) (env : FetchResult) (key : List Char)
    (h : s.loading = true) :
    fetchButtonClick s env = (s, false) ∧
    inputKeyEvent key s env = (s, false) := by
  constructor
  · unfold fetchButtonClick
    rw [if_pos (Or.inl h)]
  · unfold inputKeyEvent
    rw [if_pos h]

/-- Witness for C8 at a concrete loading state. -/
theorem claim_C8_witness :
    fetchButtonClick
        { apiUrl := "u".data, username := [], password := [],
          schema := none, loading := true, error := [],
          copied := false, curlCopied := false, debugInfo := none }
        (.networkError []) =
      ({ apiUrl := "u".data, username := [], password := [],
         schema := none, loading := true, error := [],
         copied := false, curlCopied := false, debugInfo := none }, false) ∧
    inputKeyEvent "Enter".data
        { apiUrl := "u".data, username := [], password := [],
          schema := none, loading := true, error := [],
          copied := false, curlCopied := false, debugInfo := none }
        (.networkError []) =
      ({ apiUrl := "u".data, username := [], password := [],
         schema := none, loading := true, error := [],
         copied := false, curlCopied := false, debugInfo := none }, false) :=
  claim_C8
    { apiUrl := "u".data, username := [], password := [],
      schema := none, loading := true, error := [],
      copied := false, curlCopied := false, debugInfo := none }
    (.networkError []) "Enter".data rfl

/-- C9: for a non-blank URL, `generateCurlCommand` renders exactly the
header record that `fetchSchema` builds — the same `Content-Type` header,
and the lowercase `authorization` header with the same `Basic` token
precisely when the request carries one — and it fails on exactly the
inputs on which the header construction fails. -/
theorem claim_C9 (url u p : List Char) (h : jsTrim url ≠ []) :
    (∀ hdrs, buildHeaders u p = .ok hdrs →
      generateCurlCommand url u p = .ok (curlOfDescriptor url hdrs)) ∧
    (∀ e, buildHeaders u p = .error e →
      generateCurlCommand url u p = .error e) := by
  by_cases hc : jsTrim u ≠ [] ∧ jsTrim p ≠ []
  · cases hbt : encodeBasicAuth (jsTrim u) (jsTrim p) with
    | error e =>
      have hb' : buildHeaders u p = .error e := by
        unfold buildHeaders
        rw [if_pos hc, hbt]
      constructor
      · intro hdrs hb
        rw [hb'] at hb
        simp at hb
      · intro e2 hb
        rw [hb'] at hb
        injection hb with he
        subst he
        unfold generateCurlCommand
        rw [if_neg h, if_pos hc, hbt]
        rfl
    | ok tok =>
      have hb' : buildHeaders u p =
          .ok ([("Content-Type".data, "application/json".data),
                ("authorization".data, "Basic ".data ++ tok)]) := by
        unfold buildHeaders
        rw [if_pos hc, hbt]
        rfl
      constructor
      · intro hdrs hb
        have h2 := hb'.symm.trans hb
        injection h2 with h3
        subst h3
        unfold generateCurlCommand
        rw [if_neg h, if_pos hc, hbt]
        simp only [Except.map, curlOfDescriptor, renderHeaders, renderHeader,
          List.map_cons, List.map_nil, List.flatten_cons, List.flatten_nil,
          List.append_nil, List.append_assoc]
        rfl
      · intro e hb
        rw [hb'] at hb
        simp at hb
  · have hb' : buildHeaders u p =
        .ok [("Content-Type".data, "application/json".data)] := by
      unfold buildHeaders
      rw [if_neg hc]
    constructor
    · intro hdrs hb
      have h2 := hb'.symm.trans hb
      injection h2 with h3
      subst h3
      unfold generateCurlCommand
      rw [if_neg h, if_neg hc]
      simp only [curlOfDescriptor, renderHeaders, renderHeader,
        List.map_cons, List.map_nil, List.flatten_cons, List.flatten_nil,
        List.append_nil, List.append_assoc]
      rfl
    · intro e hb
      rw [hb'] at hb
      simp at hb

/-- Witness for C9: with URL, user and password all non-blank the rendered
curl command is exactly the rendering of the built header record. -/
theorem claim_C9_witness :
    generateCurlCommand "https://api.avo.app/x".data "user".data "pass".data =
      .ok (curlOfDescriptor "https://api.avo.app/x".data
        [("Content-Type".data, "application/json".data),
         ("authorization".data, "Basic dXNlcjpwYXNz".data)]) :=
  (claim_C9 "https://api.avo.app/x".data "user".data "pass".data (by decide)).1
    _ rfl

/-- Counterexample to C10 as stated: the username `a` followed by U+3000
(ideographic space) contains a code point above U+00FF, and both
credentials are non-blank after trimming, yet no exception is raised —
JavaScript `trim` removes U+3000 before `btoa` runs, so the request is
issued and a 200 response succeeds rather than ending in the failed
state. -/
theorem claim_C10_counterexample :
    ((fetchSchema
        { apiUrl := "https://x".data, username := ['a', '　'],
          password := "b".data, schema := none, loading := false,
          error := [], copied := false, curlCopied := false,
          debugInfo := none }
        (.success 200 "OK".data [] "/x".data (.ok Json.null))).2 = true) ∧
    ((fetchSchema
        { apiUrl := "https://x".data, username := ['a', '　'],
          password := "b".data, schema := none, loading := false,
          error := [], copied := false, curlCopied := false,
          debugInfo := none }
        (.success 200 "OK".data [] "/x".data (.ok Json.null))).1.error = []) ∧
    ((fetchSchema
        { apiUrl := "https://x".data, username := ['a', '　'],
          password := "b".data, schema := none, loading := false,
          error := [], copied := false, curlCopied := false,
          debugInfo := none }
        (.success 200 "OK".data [] "/x".data (.ok Json.null))).1.schema
      = some Json.null) :=
  ⟨rfl, rfl, rfl⟩

/-- C10 as amended: when both credentials are non-blank after trimming and
the trimmed string `username:password` still contains a code point above
U+00FF, building the authorization header raises the `btoa`
`InvalidCharacterError`; the invocation issues no request and ends in the
failed state, displaying the exception's message. -/
theorem claim_C10 (s : AppState) (env : FetchResult)
    (h1 : jsTrim s.apiUrl ≠ []) (h2 : jsTrim s.username ≠ [])
    (h3 : jsTrim s.password ≠ [])
    (h4 : ((jsTrim s.username ++ ":".data ++ jsTrim s.password).all
      (fun c => c.toNat ≤ 255)) = false) :
    fetchSchema s env =
      ({ s with loading := false,
                error := JsError.message JsError.invalidCharacter,
                debugInfo := none }, false) := by
  unfold fetchSchema
  rw [if_neg h1]
  unfold fetchResolve buildHeaders encodeBasicAuth btoa
  rw [if_pos (show jsTrim (fetchStart s).username ≠ [] ∧
        jsTrim (fetchStart s).password ≠ [] from ⟨h2, h3⟩),
      if_neg (show ¬ ((jsTrim (fetchStart s).username ++ ":".data ++
        jsTrim (fetchStart s).password).all (fun c => c.toNat ≤ 255) = true) by
        intro hx
        rw [show jsTrim (fetchStart s).username = jsTrim s.username from rfl,
            show jsTrim (fetchStart s).password = jsTrim s.password from rfl] at hx
        rw [h4] at hx
        exact absurd hx (by decide))]
  rfl

/-- Witness for C10 (amended): the username `Ā` (U+0100) survives trimming
and makes the fetch end with the encoding exception and no request. -/
theorem claim_C10_witness :
    fetchSchema
        { apiUrl := "u".data, username := ['Ā'], password := "b".data,
          schema := none, loading := false, error := [], copied := false,
          curlCopied := false, debugInfo := none }
        (.networkError []) =
      ({ apiUrl := "u".data, username := ['Ā'], password := "b".data,
         schema := none, loading := false,
         error := JsError.message JsError.invalidCharacter,
         copied := false, curlCopied := false, debugInfo := none }, false) :=
  claim_C10
    { apiUrl := "u".data, username := ['Ā'], password := "b".data,
      schema := none, loading := false, error := [], copied := false,
      curlCopied := false, debugInfo := none }
    (.networkError []) (by decide) (by decide) (by decide) (by decide)
